import Mathlib

set_option maxRecDepth 4000

/-!
Shallow embedding of the motion/state classification pipeline of
`src/gw2/airborne.rs` (velocity estimator, instant classifier, temporal
classifier, runtime adapter shim).

Modelling conventions:
* `f32` values are modelled as exact rationals (`ℚ`).  All thresholds in the
  source (`39.37`, `0.35`, `1e-5`, ...) are exactly representable.
* `Instant` is a rational timestamp in seconds; `Duration` values become
  nonnegative rationals (`Duration::from_millis(120)` becomes `12/100`).
  `Instant::duration_since` / `saturating_duration_since` saturate at zero,
  modelled with `max _ 0`.
* `f32::sqrt` is not rational-valued, so the two places that keep a square
  root in a data field (`horizontal`, `magnitude`) take the square-root
  function as an explicit parameter `sqrtFn : ℚ → ℚ`; theorems that depend on
  it being a genuine square root take pointwise correctness hypotheses at the
  arguments actually used.  Square-root *comparisons* against nonnegative
  constants (`step_len_m > 30.0`) are embedded as the exactly equivalent
  squared comparison (`sqrt x > c ↔ x > c^2` for `x ≥ 0`, `c ≥ 0`).
* `VecDeque` history becomes a `List` whose head is the front (oldest entry);
  `push_back` appends at the tail.
* The `HashMap` used for the majority vote has a run-dependent iteration
  order (`RandomState`); the vote is therefore parameterised by the key
  iteration order `order : List Movement`.
-/

/-- `[f32; 3]` vectors (position / front, in the source (x,z,y) order). -/
abbrev Vec3 : Type := ℚ × ℚ × ℚ

/-- `MotionSample = ([f32; 3], [f32; 3], u32)`: position, front, ui_tick. -/
abbrev MotionSample : Type := Vec3 × Vec3 × ℕ

/-- `UNITS_PER_METER: f32 = 39.37` -/
def UNITS_PER_METER : ℚ := 3937/100

/-- `EPS: f32 = 1e-5` -/
def EPS : ℚ := 1/100000

/-- The `Speed` snapshot struct (all fields `f32`). -/
structure Speed where
  vx : ℚ
  vy : ℚ
  vz : ℚ
  horizontal : ℚ
  magnitude : ℚ
  dt_s : ℚ
deriving DecidableEq, Repr

/-- `#[derive(Default)]` for `Speed`: all-zero fields. -/
def Speed.default : Speed := ⟨0, 0, 0, 0, 0, 0⟩

/-- `f32::clamp` restricted to finite values (used with finite bounds). -/
def clampQ (x lo hi : ℚ) : ℚ := if x < lo then lo else if x > hi then hi else x

namespace classify

/-- The eleven movement labels. -/
inductive Movement where
  | Idle
  | Walk
  | RunForward
  | Strafe
  | Backpedal
  | GlideForward
  | GlideNeutral
  | GlideBack
  | Falling
  | FallingTerminal
  | Other
deriving DecidableEq, Repr

def GLIDE_VZ_MIN : ℚ := 80
def GLIDE_VZ_MAX : ℚ := 150
def GLIDE_BAND_TOL : ℚ := 18

def GLIDE_BACK_H : ℚ := 80
def GLIDE_NEUTRAL_H : ℚ := 294
def GLIDE_FWD_H : ℚ := 390

def FALL_MIN_VZ : ℚ := 220
def FALL_VERTICAL_DOM_RATIO : ℚ := 27/20
def TERMINAL_VZ : ℚ := 900
def BEYOND_GLIDE_VZ_MARGIN : ℚ := 20

def IDLE_H_MAX : ℚ := 10

def WALK_H : ℚ := 80
def WALK_TOL_H : ℚ := 20

def RUN_FWD_OOC_H : ℚ := 294
def RUN_FWD_IC_H : ℚ := 210
def RUN_STRAFE_H : ℚ := 180
def RUN_BACK_H : ℚ := 105
def RUN_FWD_TOL_H : ℚ := 50
def RUN_STRAFE_TOL_H : ℚ := 28
def RUN_BACK_TOL_H : ℚ := 24
def GROUND_MAX_VZ_FOR_RUN : ℚ := 180
def GROUND_MAX_GLIDE_RATIO : ℚ := 9/10

/-- `facing_xy_from_front`: normalize the horizontal part of the front
vector.  The length is a square root, supplied through `sqrtFn`. -/
def facing_xy_from_front (sqrtFn : ℚ → ℚ) (front_xzy : Vec3) : ℚ × ℚ :=
  let fx := front_xzy.1
  let fy := front_xzy.2.2
  let len := sqrtFn (fx * fx + fy * fy)
  if len > 1/1000 then (fx / len, fy / len) else (0, 1)

/-- `snap_glide`: nearest of the three glide reference speeds.
Rust `Iterator::min_by` keeps the *first* of equally minimal entries, with
the array ordered `[GlideBack, GlideNeutral, GlideForward]`. -/
def snap_glide (h : ℚ) : Movement :=
  let dB := |h - GLIDE_BACK_H|
  let dN := |h - GLIDE_NEUTRAL_H|
  let dF := |h - GLIDE_FWD_H|
  if dN < dB then (if dF < dN then .GlideForward else .GlideNeutral)
  else (if dF < dB then .GlideForward else .GlideBack)

/-- The facing-projection block of `classify` (source lines 213–228):
returns `(forward_comp, fwd_like, back_like, strafe_like)`. -/
def facingInfo (s : Speed) (facing_xy : Option (ℚ × ℚ)) :
    ℚ × Bool × Bool × Bool :=
  let h := s.horizontal
  match facing_xy with
  | some (fx, fy) =>
    if h > 30 then
      let nhx := s.vx / h
      let nhy := s.vy / h
      let dot := clampQ (nhx * fx + nhy * fy) (-1) 1
      let fwd_like := decide (dot ≥ 35/100)
      let back_like := decide (dot ≤ -(35/100))
      (h * dot, fwd_like, back_like, !fwd_like && !back_like)
    else (h, false, false, false)
  | none => (h, false, false, false)

/-- The tail of `classify` after the glide-banding check (source lines
243–277): ground checks guarded by `ground_ok_by_vz`, falling through to
`Other`.  (In ℚ, `x / 0 = 0`; the only unguarded division
`abs_vz / (h + 1)` diverges from IEEE semantics only at `h = -1` exactly,
which no theorem below exercises.) -/
def classifyGround (s : Speed) (forward_comp : ℚ)
    (fwd_like back_like strafe_like : Bool) : Movement :=
  let h := s.horizontal
  let abs_vz := |s.vz|
  let speed3d := s.magnitude
  let ground_ok_by_vz :=
    abs_vz ≤ GROUND_MAX_VZ_FOR_RUN ∨ abs_vz / (h + 1) < GROUND_MAX_GLIDE_RATIO
  if ground_ok_by_vz then
    if |speed3d - WALK_H| ≤ WALK_TOL_H then .Walk
    else if back_like ∨ |h - RUN_BACK_H| ≤ RUN_BACK_TOL_H then .Backpedal
    else if strafe_like ∨ |h - RUN_STRAFE_H| ≤ RUN_STRAFE_TOL_H then .Strafe
    else if |forward_comp - RUN_FWD_OOC_H| ≤ RUN_FWD_TOL_H
         ∨ |forward_comp - RUN_FWD_IC_H| ≤ RUN_FWD_TOL_H then .RunForward
    else if |h - RUN_FWD_OOC_H| ≤ RUN_FWD_TOL_H
         ∨ |h - RUN_FWD_IC_H| ≤ RUN_FWD_TOL_H then .RunForward
    else if fwd_like ∧ h > 150 then .RunForward
    else .Other
  else .Other

/-- Glide-band acceptance check for the label picked by `snap_glide`
(source lines 232–237). -/
def glideBandOk (m : Movement) (h : ℚ) : Bool :=
  match m with
  | .GlideBack => decide (|h - GLIDE_BACK_H| ≤ GLIDE_BAND_TOL)
  | .GlideNeutral => decide (|h - GLIDE_NEUTRAL_H| ≤ GLIDE_BAND_TOL)
  | .GlideForward => decide (|h - GLIDE_FWD_H| ≤ GLIDE_BAND_TOL)
  | _ => false

set_option linter.dupNamespace false in
/-- `classify(s, facing_xy)`: the instant classifier (source lines 185–278). -/
def classify (s : Speed) (facing_xy : Option (ℚ × ℚ)) : Movement :=
  let h := s.horizontal
  let vz := s.vz
  let abs_vz := |vz|
  if h < IDLE_H_MAX ∧ abs_vz < 5 then .Idle
  else if vz < -(GLIDE_VZ_MAX + BEYOND_GLIDE_VZ_MARGIN)
       ∧ abs_vz ≥ FALL_VERTICAL_DOM_RATIO * (h + 1) then
    (if abs_vz ≥ TERMINAL_VZ then .FallingTerminal else .Falling)
  else if vz ≤ -FALL_MIN_VZ ∧ abs_vz ≥ FALL_VERTICAL_DOM_RATIO * (h + 1) then
    (if abs_vz ≥ TERMINAL_VZ then .FallingTerminal else .Falling)
  else
    let fb := facingInfo s facing_xy
    if vz < 0 ∧ abs_vz ≥ GLIDE_VZ_MIN ∧ abs_vz ≤ GLIDE_VZ_MAX then
      let m := snap_glide h
      if glideBandOk m h then m
      else classifyGround s fb.1 fb.2.1 fb.2.2.1 fb.2.2.2
    else classifyGround s fb.1 fb.2.1 fb.2.2.1 fb.2.2.2

end classify


open classify (Movement) in
/-- `same_airborne_family(a, b)`: both labels are glide or falling variants. -/
def inAirborneFamily : Movement → Bool
  | .GlideBack | .GlideNeutral | .GlideForward | .Falling | .FallingTerminal => true
  | _ => false

def same_airborne_family (a b : classify.Movement) : Bool :=
  inAirborneFamily a && inAirborneFamily b

/-- `vz_trend(hist)`: vertical-speed slope between oldest and newest entry.
`(*t1 - *t0)` saturates at zero and is floored at `1e-3` seconds. -/
def vz_trend (hist : List (ℚ × Speed)) : ℚ :=
  match hist with
  | [] => 0
  | [_] => 0
  | (t0, s0) :: rest =>
    match rest.getLast? with
    | some (t1, s1) => (s1.vz - s0.vz) / max (max (t1 - t0) 0) (1/1000)
    | none => 0

def GLIDE_LOCK_VZ_MIN : ℚ := 60
def GLIDE_LOCK_VZ_MAX : ℚ := 170
/-- `GLIDE_LOCK_DWELL_MS = 180`, as seconds. -/
def GLIDE_LOCK_DWELL : ℚ := 18/100
/-- Module-level `BEYOND_GLIDE_VZ_MARGIN` (line 307). -/
def TEMPORAL_BEYOND_GLIDE_VZ_MARGIN : ℚ := 20
/-- `FALL_ACCEL_GATE` (local constant in `update`). -/
def FALL_ACCEL_GATE : ℚ := -350

/-- The `TemporalClassifier` state.  `history` keeps the oldest entry at the
head (the `VecDeque` front); timestamps are rational seconds. -/
structure TemporalClassifier where
  history : List (ℚ × Speed)
  window : ℚ
  state : classify.Movement
  last_switch : ℚ
  min_dwell_in : ℚ
  min_dwell_out : ℚ
  glide_locked_until : ℚ
deriving DecidableEq, Repr

/-- `TemporalClassifier::new(now)`. -/
def TemporalClassifier.new (now : ℚ) : TemporalClassifier :=
  { history := []
    window := 3/10
    state := .Idle
    last_switch := now
    min_dwell_in := 12/100
    min_dwell_out := 16/100
    glide_locked_until := now }

/-- The eviction loop of `update`: pop entries from the front while they are
older than the window. -/
def trimFront (now window : ℚ) : List (ℚ × Speed) → List (ℚ × Speed)
  | [] => []
  | (t0, s0) :: rest =>
    if max (now - t0) 0 > window then trimFront now window rest
    else (t0, s0) :: rest

/-- `history.push_back((now, s))` followed by the eviction loop. -/
def pushTrim (tc : TemporalClassifier) (now : ℚ) (s : Speed) :
    List (ℚ × Speed) :=
  trimFront now tc.window (tc.history ++ [(now, s)])

/-- The rolling-average block of `update`: sum the five speed fields over the
window, divide by `len.max(1)`, keep the incoming sample's `dt_s`. -/
def avgOf (hist : List (ℚ × Speed)) (s : Speed) : Speed :=
  let sum := hist.foldl
    (fun acc ts =>
      { acc with
        vx := acc.vx + ts.2.vx
        vy := acc.vy + ts.2.vy
        vz := acc.vz + ts.2.vz
        horizontal := acc.horizontal + ts.2.horizontal
        magnitude := acc.magnitude + ts.2.magnitude })
    Speed.default
  let n : ℚ := max (hist.length : ℚ) 1
  { vx := sum.vx / n
    vy := sum.vy / n
    vz := sum.vz / n
    horizontal := sum.horizontal / n
    magnitude := sum.magnitude / n
    dt_s := s.dt_s }

open classify (Movement) in
/-- The majority vote of `update` (source lines 359–368).  The tally is a
`HashMap` whose iteration order is run-dependent, so the vote takes the key
iteration order as the parameter `order`; `max_by_key` keeps the *last* of
equally maximal entries in iteration order, `unwrap_or` yields `Other` on an
empty tally. -/
def voteOf (order : List Movement) (hist : List (ℚ × Speed))
    (facing : Option (ℚ × ℚ)) : Movement :=
  let k := min 5 hist.length
  let labels := (hist.reverse.take k).map (fun ts => classify.classify ts.2 facing)
  let pick := fun (acc : Option Movement) (m : Movement) =>
    match acc with
    | none => some m
    | some a => if labels.count a ≤ labels.count m then some m else some a
  (order.foldl pick none).getD .Other

/-- `accel_suggests_fall` (source lines 371–373). -/
def accelSuggestsFall (hist : List (ℚ × Speed)) (avg : Speed) : Bool :=
  decide (vz_trend hist ≤ FALL_ACCEL_GATE) &&
  decide (avg.vz < -classify.GLIDE_VZ_MIN)

/-- The glide-lock bookkeeping of `update` (source lines 375–384): extend the
lock while the averaged vertical speed looks glidey, then cancel it (set it
to `now`) when the acceleration gate fired or the average is beyond the glide
envelope. -/
def lockAfter (tc : TemporalClassifier) (now : ℚ) (avg : Speed)
    (accel : Bool) : ℚ :=
  let abs_vz := |avg.vz|
  let looks_glidey_vz :=
    avg.vz < 0 ∧ GLIDE_LOCK_VZ_MIN ≤ abs_vz ∧ abs_vz ≤ GLIDE_LOCK_VZ_MAX
  let l1 := if looks_glidey_vz then now + GLIDE_LOCK_DWELL
            else tc.glide_locked_until
  let beyond_glide_vz := avg.vz < -(150 + TEMPORAL_BEYOND_GLIDE_VZ_MARGIN)
  if accel ∨ beyond_glide_vz then now else l1

/-- `matches!(self.state, GlideBack | GlideNeutral | GlideForward)`. -/
def isGlideVariant : classify.Movement → Bool
  | .GlideBack | .GlideNeutral | .GlideForward => true
  | _ => false

open classify (Movement) in
/-- The proposed label of `update` (source lines 386–404): `Falling` when the
acceleration gate fired, else the averaged-sample label (the vote comparison
picks `avg_label` in both branches); then overridden to the nearest glide
band while the lock is active, or when the stable state is a glide variant
and the proposal is `Other`. -/
def proposedOf (order : List Movement) (tc : TemporalClassifier) (now : ℚ)
    (s : Speed) (facing : Option (ℚ × ℚ)) : Movement :=
  let hist := pushTrim tc now s
  let avg := avgOf hist s
  let vote := voteOf order hist facing
  let avg_label := classify.classify avg facing
  let accel := accelSuggestsFall hist avg
  let lock := lockAfter tc now avg accel
  let p0 : Movement :=
    if accel then .Falling
    else if vote = avg_label then avg_label
    else avg_label
  if now ≤ lock then classify.snap_glide avg.horizontal
  else if isGlideVariant tc.state ∧ p0 = .Other then
    classify.snap_glide avg.horizontal
  else p0

/-- The tail scan of the dwell check (source lines 413–422): walk the window
from newest to oldest accumulating time while the instant label matches the
proposal.  Takes the *reversed* history (newest first) and the running
`last_t` (initially `now`). -/
def tailProposedTime (facing : Option (ℚ × ℚ)) (proposed : classify.Movement) :
    ℚ → List (ℚ × Speed) → ℚ
  | _, [] => 0
  | last_t, (t, sp) :: rest =>
    if classify.classify sp facing = proposed then
      max (last_t - t) 0 + tailProposedTime facing proposed t rest
    else 0

open classify (Movement) in
/-- `TemporalClassifier::update` (source lines 331–431), parameterised by the
`HashMap` key iteration order.  Returns the reported label together with the
successor state. -/
def TemporalClassifier.update (order : List Movement)
    (tc : TemporalClassifier) (now : ℚ) (s : Speed)
    (facing : Option (ℚ × ℚ)) : Movement × TemporalClassifier :=
  let hist := pushTrim tc now s
  let avg := avgOf hist s
  let accel := accelSuggestsFall hist avg
  let lock := lockAfter tc now avg accel
  let proposed := proposedOf order tc now s facing
  let cur := tc.state
  let tc1 := { tc with history := hist, glide_locked_until := lock }
  if proposed ≠ cur then
    if same_airborne_family cur proposed ∧ proposed ≠ .Other then
      (proposed, { tc1 with state := proposed, last_switch := now })
    else
      let since := max (now - tc.last_switch) 0
      let proposed_time := tailProposedTime facing proposed now hist.reverse
      if tc.min_dwell_in ≤ proposed_time ∧ tc.min_dwell_out ≤ since then
        (proposed, { tc1 with state := proposed, last_switch := now })
      else (cur, tc1)
  else (cur, tc1)


/-- The `SpeedCalculator` state (source lines 31–38). -/
structure SpeedCalculator where
  prev_pos_m : Option Vec3
  prev_t : Option ℚ
  smoothing_alpha : ℚ
  v_smooth : Vec3
  max_reasonable_dt : ℚ
  max_reasonable_step_m : ℚ
deriving DecidableEq, Repr

/-- `SpeedCalculator::new()`. -/
def SpeedCalculator.new : SpeedCalculator :=
  { prev_pos_m := none
    prev_t := none
    smoothing_alpha := 35/100
    v_smooth := (0, 0, 0)
    max_reasonable_dt := 1/2
    max_reasonable_step_m := 30 }

/-- The axis remap at the top of `step`: `(x,z,y)` order to `(x,y,z)`. -/
def remapXzy (pos_xzy : Vec3) : Vec3 := (pos_xzy.1, pos_xzy.2.2, pos_xzy.2.1)

/-- Squared displacement between two positions. -/
def dist2 (a b : Vec3) : ℚ :=
  (a.1 - b.1) * (a.1 - b.1) + (a.2.1 - b.2.1) * (a.2.1 - b.2.1) +
    (a.2.2 - b.2.2) * (a.2.2 - b.2.2)

/-- The exponential-smoothing update of `step` (source lines 86–89):
`v_smooth[i] = a * v_smooth[i] + (1 - a) * raw[i]` per axis, with
`a = smoothing_alpha.clamp(0,1)` and `raw = displacement / dt`. -/
def newSmooth (sc : SpeedCalculator) (p pos_m : Vec3) (dt : ℚ) : Vec3 :=
  let a := clampQ sc.smoothing_alpha 0 1
  (a * sc.v_smooth.1 + (1 - a) * ((pos_m.1 - p.1) / dt),
   a * sc.v_smooth.2.1 + (1 - a) * ((pos_m.2.1 - p.2.1) / dt),
   a * sc.v_smooth.2.2 + (1 - a) * ((pos_m.2.2 - p.2.2) / dt))

/-- The `EPS` flush used when building the returned `Speed`:
`if v.abs() < EPS { 0.0 } else { v }`. -/
def flushEps (v : ℚ) : ℚ := if |v| < EPS then 0 else v

/-- `SpeedCalculator::step` (source lines 52–109).  Returns the optional
`Speed` together with the successor state.  The comparison
`step_len_m > max_reasonable_step_m`, where `step_len_m = sqrt d2`, is
embedded as the exactly equivalent `d2 > max_reasonable_step_m ^ 2`; the
square roots stored in `horizontal` and `magnitude` go through `sqrtFn`. -/
def SpeedCalculator.step (sqrtFn : ℚ → ℚ) (sc : SpeedCalculator)
    (pos_xzy_m : Vec3) (now : ℚ) : Option Speed × SpeedCalculator :=
  let pos_m := remapXzy pos_xzy_m
  match sc.prev_pos_m, sc.prev_t with
  | some p, some t =>
    let dt := max (now - t) 0
    if dt < 1/1000 ∨ dt > sc.max_reasonable_dt then
      (none, { sc with prev_pos_m := some pos_m, prev_t := some now })
    else if dist2 pos_m p > sc.max_reasonable_step_m ^ 2 then
      (none, { sc with prev_pos_m := some pos_m, prev_t := some now })
    else
      let v := newSmooth sc p pos_m dt
      let vx := v.1 * UNITS_PER_METER
      let vy := v.2.1 * UNITS_PER_METER
      let vz := v.2.2 * UNITS_PER_METER
      let horizontal := sqrtFn (vx * vx + vy * vy)
      let magnitude := sqrtFn (horizontal * horizontal + vz * vz)
      (some { vx := flushEps vx
              vy := flushEps vy
              vz := flushEps vz
              horizontal := horizontal
              magnitude := magnitude
              dt_s := dt },
       { sc with prev_pos_m := some pos_m, prev_t := some now, v_smooth := v })
  | _, _ =>
    (none, { sc with prev_pos_m := some pos_m, prev_t := some now })

/-- The `AirClassifier` runtime wrapper (source lines 435–443). -/
structure AirClassifier where
  calc' : SpeedCalculator
  temporal : TemporalClassifier
  last_state : classify.Movement
  last_change : ℚ
  landing_grace_ms : ℕ
deriving DecidableEq, Repr

/-- `AirClassifier::new(now)`. -/
def AirClassifier.new (now : ℚ) : AirClassifier :=
  { calc' := SpeedCalculator.new
    temporal := TemporalClassifier.new now
    last_state := .Idle
    last_change := now
    landing_grace_ms := 250 }

open classify (Movement) in
/-- `AirClassifier::update_with` (source lines 457–475).  The motion source
read is the `Option MotionSample` argument, the ambient `Instant::now()` is
the `now` argument.  The `tick` component of a sample is bound and then
never used, exactly as in the source. -/
def AirClassifier.update_with (sqrtFn : ℚ → ℚ) (order : List Movement)
    (ac : AirClassifier) (now : ℚ) (motion : Option MotionSample) :
    Movement × AirClassifier :=
  match motion with
  | none => (ac.last_state, ac)
  | some (pos_xzy, front_xzy, _tick) =>
    match SpeedCalculator.step sqrtFn ac.calc' pos_xzy now with
    | (none, calc1) => (ac.last_state, { ac with calc' := calc1 })
    | (some spd, calc1) =>
      let facing_xy := classify.facing_xy_from_front sqrtFn front_xzy
      let r := TemporalClassifier.update order ac.temporal now spd (some facing_xy)
      if r.1 ≠ ac.last_state then
        (r.1, { ac with calc' := calc1, temporal := r.2,
                        last_state := r.1, last_change := now })
      else
        (ac.last_state, { ac with calc' := calc1, temporal := r.2 })

open classify (Movement) in
/-- Driving `update_with` over a timestamped stream of motion reads,
collecting the reported labels. -/
def runWith (sqrtFn : ℚ → ℚ) (order : List Movement) :
    AirClassifier → List (ℚ × Option MotionSample) → List Movement
  | _, [] => []
  | ac, (now, m) :: rest =>
    let r := AirClassifier.update_with sqrtFn order ac now m
    r.1 :: runWith sqrtFn order r.2 rest

open classify (Movement) in
/-- The proposed label with the majority vote omitted entirely (the
refinement variant for the vote-irrelevance claim): identical to
`proposedOf` except that `p0` is `Falling` on the acceleration gate and
`avg_label` otherwise, with no vote computed. -/
def proposedNoVoteOf (tc : TemporalClassifier) (now : ℚ) (s : Speed)
    (facing : Option (ℚ × ℚ)) : Movement :=
  let hist := pushTrim tc now s
  let avg := avgOf hist s
  let avg_label := classify.classify avg facing
  let accel := accelSuggestsFall hist avg
  let lock := lockAfter tc now avg accel
  let p0 : Movement := if accel then .Falling else avg_label
  if now ≤ lock then classify.snap_glide avg.horizontal
  else if isGlideVariant tc.state ∧ p0 = .Other then
    classify.snap_glide avg.horizontal
  else p0

open classify (Movement) in
/-- `TemporalClassifier::update` with the majority vote omitted (refinement
variant): same as `TemporalClassifier.update` but built on
`proposedNoVoteOf`. -/
def TemporalClassifier.updateNoVote (tc : TemporalClassifier) (now : ℚ)
    (s : Speed) (facing : Option (ℚ × ℚ)) : Movement × TemporalClassifier :=
  let hist := pushTrim tc now s
  let avg := avgOf hist s
  let accel := accelSuggestsFall hist avg
  let lock := lockAfter tc now avg accel
  let proposed := proposedNoVoteOf tc now s facing
  let cur := tc.state
  let tc1 := { tc with history := hist, glide_locked_until := lock }
  if proposed ≠ cur then
    if same_airborne_family cur proposed ∧ proposed ≠ .Other then
      (proposed, { tc1 with state := proposed, last_switch := now })
    else
      let since := max (now - tc.last_switch) 0
      let proposed_time := tailProposedTime facing proposed now hist.reverse
      if tc.min_dwell_in ≤ proposed_time ∧ tc.min_dwell_out ≤ since then
        (proposed, { tc1 with state := proposed, last_switch := now })
      else (cur, tc1)
  else (cur, tc1)

/-!
Finite-or-NaN model of `f32` for the totality analysis of `classify`:
`none` stands for NaN, `some q` for a finite value.  IEEE NaN propagates
through arithmetic, and every ordered comparison involving NaN is false.
Division by exact zero yields ±∞ or NaN in IEEE; the model folds it to
`none`, which is adequate here because the single unguarded division of the
classifier (`abs_vz / (h + 1.0)`) only feeds the comparison `< 0.9`, and
that comparison is false both for `+∞` (the IEEE value when `abs_vz > 0`,
since `abs_vz = |vz| ≥ 0` and the zero denominator `h + 1.0` carries a
positive sign) and for NaN (`0/0`) — exactly as for `none`.
-/

/-- Finite-or-NaN `f32` value. -/
abbrev Fl : Type := Option ℚ

def fadd : Fl → Fl → Fl
  | some a, some b => some (a + b)
  | _, _ => none

def fmul : Fl → Fl → Fl
  | some a, some b => some (a * b)
  | _, _ => none

def fdiv : Fl → Fl → Fl
  | some a, some b => if b = 0 then none else some (a / b)
  | _, _ => none

def fabs : Fl → Fl
  | some a => some |a|
  | none => none

/-- `a < b` on `f32`: false whenever either side is NaN. -/
def flt : Fl → Fl → Bool
  | some a, some b => decide (a < b)
  | _, _ => false

/-- `a <= b` on `f32`: false whenever either side is NaN. -/
def fle : Fl → Fl → Bool
  | some a, some b => decide (a ≤ b)
  | _, _ => false

def fgt (a b : Fl) : Bool := flt b a

def fge (a b : Fl) : Bool := fle b a

/-- `f32::clamp` (with finite bounds): NaN input propagates (both guard
comparisons are false, so the input is returned). -/
def fclamp (x lo hi : Fl) : Fl :=
  if flt x lo then lo else if fgt x hi then hi else x

/-- `Speed` with finite-or-NaN fields. -/
structure SpeedFl where
  vx : Fl
  vy : Fl
  vz : Fl
  horizontal : Fl
  magnitude : Fl
  dt_s : Fl
deriving DecidableEq, Repr

open classify (Movement) in
/-- `snap_glide` on a finite-or-NaN horizontal speed.  When `h` is NaN all
three band distances are NaN, the very first
`partial_cmp(..).unwrap()` inside `min_by` returns `None` and unwraps —
a panic, modelled as `none`.  When `h` is finite every distance is finite
and `min_by` behaves exactly like the total-order `snap_glide`. -/
def snapGlideFl (h : Fl) : Option Movement :=
  match h with
  | none => none
  | some q => some (classify.snap_glide q)

open classify in
/-- The facing-projection block of `classify` over finite-or-NaN values. -/
def facingInfoFl (s : SpeedFl) (facing_xy : Option (Fl × Fl)) :
    Fl × Bool × Bool × Bool :=
  let h := s.horizontal
  match facing_xy with
  | some (fx, fy) =>
    if fgt h (some 30) then
      let nhx := fdiv s.vx h
      let nhy := fdiv s.vy h
      let dot := fclamp (fadd (fmul nhx fx) (fmul nhy fy)) (some (-1)) (some 1)
      let fwd_like := fge dot (some (35/100))
      let back_like := fle dot (some (-(35/100)))
      (fmul h dot, fwd_like, back_like, !fwd_like && !back_like)
    else (h, false, false, false)
  | none => (h, false, false, false)

open classify in
/-- The ground-check tail of `classify` over finite-or-NaN values; it
performs no `unwrap`, hence always yields a label. -/
def classifyGroundFl (s : SpeedFl) (forward_comp : Fl)
    (fwd_like back_like strafe_like : Bool) : Movement :=
  let h := s.horizontal
  let abs_vz := fabs s.vz
  let speed3d := s.magnitude
  let ground_ok_by_vz :=
    fle abs_vz (some GROUND_MAX_VZ_FOR_RUN) ||
    flt (fdiv abs_vz (fadd h (some 1))) (some GROUND_MAX_GLIDE_RATIO)
  if ground_ok_by_vz then
    if fle (fabs (fadd speed3d (some (-WALK_H)))) (some WALK_TOL_H) then .Walk
    else if back_like ||
        fle (fabs (fadd h (some (-RUN_BACK_H)))) (some RUN_BACK_TOL_H) then
      .Backpedal
    else if strafe_like ||
        fle (fabs (fadd h (some (-RUN_STRAFE_H)))) (some RUN_STRAFE_TOL_H) then
      .Strafe
    else if fle (fabs (fadd forward_comp (some (-RUN_FWD_OOC_H)))) (some RUN_FWD_TOL_H) ||
        fle (fabs (fadd forward_comp (some (-RUN_FWD_IC_H)))) (some RUN_FWD_TOL_H) then
      .RunForward
    else if fle (fabs (fadd h (some (-RUN_FWD_OOC_H)))) (some RUN_FWD_TOL_H) ||
        fle (fabs (fadd h (some (-RUN_FWD_IC_H)))) (some RUN_FWD_TOL_H) then
      .RunForward
    else if fwd_like && fgt h (some 150) then .RunForward
    else .Other
  else .Other

open classify in
/-- Glide-band acceptance over finite-or-NaN values. -/
def glideBandOkFl (m : Movement) (h : Fl) : Bool :=
  match m with
  | .GlideBack => fle (fabs (fadd h (some (-GLIDE_BACK_H)))) (some GLIDE_BAND_TOL)
  | .GlideNeutral => fle (fabs (fadd h (some (-GLIDE_NEUTRAL_H)))) (some GLIDE_BAND_TOL)
  | .GlideForward => fle (fabs (fadd h (some (-GLIDE_FWD_H)))) (some GLIDE_BAND_TOL)
  | _ => false

open classify in
/-- `classify` over finite-or-NaN inputs: `none` is a panic (the
`partial_cmp(..).unwrap()` inside `snap_glide`), `some m` a returned label. -/
def classifyFl (s : SpeedFl) (facing_xy : Option (Fl × Fl)) :
    Option Movement :=
  let h := s.horizontal
  let vz := s.vz
  let abs_vz := fabs vz
  if flt h (some IDLE_H_MAX) && flt abs_vz (some 5) then some .Idle
  else if flt vz (some (-(GLIDE_VZ_MAX + BEYOND_GLIDE_VZ_MARGIN))) &&
      fge abs_vz (fmul (some FALL_VERTICAL_DOM_RATIO) (fadd h (some 1))) then
    some (if fge abs_vz (some TERMINAL_VZ) then .FallingTerminal else .Falling)
  else if fle vz (some (-FALL_MIN_VZ)) &&
      fge abs_vz (fmul (some FALL_VERTICAL_DOM_RATIO) (fadd h (some 1))) then
    some (if fge abs_vz (some TERMINAL_VZ) then .FallingTerminal else .Falling)
  else
    let fb := facingInfoFl s facing_xy
    if flt vz (some 0) && fge abs_vz (some GLIDE_VZ_MIN) &&
        fle abs_vz (some GLIDE_VZ_MAX) then
      match snapGlideFl h with
      | none => none
      | some m =>
        if glideBandOkFl m h then some m
        else some (classifyGroundFl s fb.1 fb.2.1 fb.2.2.1 fb.2.2.2)
    else some (classifyGroundFl s fb.1 fb.2.1 fb.2.2.1 fb.2.2.2)



/-- Two motion reads that agree on position and facing (the `tick`
component is unconstrained). -/
def sameMotionRead : Option MotionSample → Option MotionSample → Prop
  | none, none => True
  | some (p1, f1, _), some (p2, f2, _) => p1 = p2 ∧ f1 = f2
  | _, _ => False

/-- Pointwise agreement of two timestamped input streams up to ticks. -/
def agreesUpToTick (a b : ℚ × Option MotionSample) : Prop :=
  a.1 = b.1 ∧ sameMotionRead a.2 b.2

/-- The literal statement of the tick-usage claim: some pair of input
streams that agree on position and facing (differing only in the tick
counter) drives `update_with` to different behaviour. -/
def TickDistinguishable : Prop :=
  ∃ (sqrtFn : ℚ → ℚ) (order : List classify.Movement) (ac : AirClassifier)
    (evs1 evs2 : List (ℚ × Option MotionSample)),
    List.Forall₂ agreesUpToTick evs1 evs2 ∧
    runWith sqrtFn order ac evs1 ≠ runWith sqrtFn order ac evs2

/-- Helper: `flushEps` is the identity on values that are zero or at least
`EPS` in magnitude. -/
theorem flushEps_eq_self (v : ℚ) (h : v = 0 ∨ EPS ≤ |v|) : flushEps v = v := by
  rcases h with h | h
  · simp [flushEps, h]
  · simp [flushEps, not_lt.mpr h]

/-- Helper: inversion of an accepted `step` call — the previous sample must
have been primed and both guards must have passed, and the returned speed
and successor state are the ones built in the accepting branch. -/
theorem step_accepts (sqrtFn : ℚ → ℚ) (sc : SpeedCalculator) (p : Vec3)
    (t : ℚ) (pos : Vec3) (now : ℚ) (s1 : Speed)
    (hp : sc.prev_pos_m = some p) (ht : sc.prev_t = some t)
    (hs : (SpeedCalculator.step sqrtFn sc pos now).1 = some s1) :
    ¬(max (now - t) 0 < 1/1000 ∨ max (now - t) 0 > sc.max_reasonable_dt) ∧
    ¬(dist2 (remapXzy pos) p > sc.max_reasonable_step_m ^ 2) ∧
    (SpeedCalculator.step sqrtFn sc pos now =
      (some { vx := flushEps ((newSmooth sc p (remapXzy pos) (max (now - t) 0)).1 * UNITS_PER_METER)
              vy := flushEps ((newSmooth sc p (remapXzy pos) (max (now - t) 0)).2.1 * UNITS_PER_METER)
              vz := flushEps ((newSmooth sc p (remapXzy pos) (max (now - t) 0)).2.2 * UNITS_PER_METER)
              horizontal := sqrtFn
                ((newSmooth sc p (remapXzy pos) (max (now - t) 0)).1 * UNITS_PER_METER *
                  ((newSmooth sc p (remapXzy pos) (max (now - t) 0)).1 * UNITS_PER_METER) +
                 (newSmooth sc p (remapXzy pos) (max (now - t) 0)).2.1 * UNITS_PER_METER *
                  ((newSmooth sc p (remapXzy pos) (max (now - t) 0)).2.1 * UNITS_PER_METER))
              magnitude := sqrtFn
                (sqrtFn
                  ((newSmooth sc p (remapXzy pos) (max (now - t) 0)).1 * UNITS_PER_METER *
                    ((newSmooth sc p (remapXzy pos) (max (now - t) 0)).1 * UNITS_PER_METER) +
                   (newSmooth sc p (remapXzy pos) (max (now - t) 0)).2.1 * UNITS_PER_METER *
                    ((newSmooth sc p (remapXzy pos) (max (now - t) 0)).2.1 * UNITS_PER_METER)) *
                 sqrtFn
                  ((newSmooth sc p (remapXzy pos) (max (now - t) 0)).1 * UNITS_PER_METER *
                    ((newSmooth sc p (remapXzy pos) (max (now - t) 0)).1 * UNITS_PER_METER) +
                   (newSmooth sc p (remapXzy pos) (max (now - t) 0)).2.1 * UNITS_PER_METER *
                    ((newSmooth sc p (remapXzy pos) (max (now - t) 0)).2.1 * UNITS_PER_METER)) +
                 (newSmooth sc p (remapXzy pos) (max (now - t) 0)).2.2 * UNITS_PER_METER *
                  ((newSmooth sc p (remapXzy pos) (max (now - t) 0)).2.2 * UNITS_PER_METER))
              dt_s := max (now - t) 0 },
       { sc with prev_pos_m := some (remapXzy pos), prev_t := some now,
                 v_smooth := newSmooth sc p (remapXzy pos) (max (now - t) 0) })) := by
  simp only [SpeedCalculator.step, hp, ht] at hs ⊢
  by_cases h1 : max (now - t) 0 < 1/1000 ∨ max (now - t) 0 > sc.max_reasonable_dt
  · rw [if_pos h1] at hs; exact absurd hs (by simp)
  · rw [if_neg h1] at hs ⊢
    by_cases h2 : dist2 (remapXzy pos) p > sc.max_reasonable_step_m ^ 2
    · rw [if_pos h2] at hs; exact absurd hs (by simp)
    · rw [if_neg h2] at hs ⊢
      exact ⟨h1, h2, rfl⟩

/-- C2 amended: each accepted sample updates the smoothed velocity per axis
as `v_smooth' = 0.35 * v_smooth + 0.65 * v_raw` — i.e. the blend keeps
0.35 of the *retained* value and takes 0.65 of the *new raw* velocity
(`v_raw = displacement / dt`), the transpose of the claimed weights. -/
theorem C2_smoothing_blend_65_new_35_retained (sqrtFn : ℚ → ℚ)
    (sc : SpeedCalculator) (p : Vec3) (t : ℚ) (pos : Vec3) (now : ℚ)
    (s1 : Speed)
    (hp : sc.prev_pos_m = some p) (ht : sc.prev_t = some t)
    (ha : sc.smoothing_alpha = 35/100)
    (hs : (SpeedCalculator.step sqrtFn sc pos now).1 = some s1) :
    (SpeedCalculator.step sqrtFn sc pos now).2.v_smooth =
      (35/100 * sc.v_smooth.1 +
         65/100 * (((remapXzy pos).1 - p.1) / max (now - t) 0),
       35/100 * sc.v_smooth.2.1 +
         65/100 * (((remapXzy pos).2.1 - p.2.1) / max (now - t) 0),
       35/100 * sc.v_smooth.2.2 +
         65/100 * (((remapXzy pos).2.2 - p.2.2) / max (now - t) 0)) := by
  rw [(step_accepts sqrtFn sc p t pos now s1 hp ht hs).2.2]
  simp only [newSmooth, clampQ, ha]
  norm_num

/-- C2 counterexample: at rest (`v_smooth = 0`) with raw velocity 10 m/s on
the x axis, the new smoothed value is `6.5 = 0.65 * 10`, not the
`3.5 = 0.35 * 10 + 0.65 * 0` that the claimed blend
`0.35 * new + 0.65 * retained` would give. -/
theorem C2_claim_counterexample :
    (SpeedCalculator.step (fun _ => 0)
        { SpeedCalculator.new with prev_pos_m := some (0,0,0), prev_t := some 0 }
        (1, 0, 0) (1/10)).2.v_smooth.1 = 13/2 ∧
    ((13/2 : ℚ) ≠
      35/100 * (((1 : ℚ) - 0) / (1/10)) +
        65/100 * ({ SpeedCalculator.new with
                     prev_pos_m := some (0,0,0),
                     prev_t := some 0 } : SpeedCalculator).v_smooth.1) := by
  with_unfolding_all decide

/-- Witness for C2 amended: the same concrete accepted sample, with the
hypotheses discharged and the amended blend evaluated. -/
theorem C2_smoothing_blend_witness :
    (SpeedCalculator.step (fun _ => 0)
        { SpeedCalculator.new with prev_pos_m := some (0,0,0), prev_t := some 0 }
        (1, 0, 0) (1/10)).2.v_smooth =
      (35/100 * (0 : ℚ) + 65/100 * (((remapXzy (1,0,0)).1 - 0) / max ((1/10 : ℚ) - 0) 0),
       35/100 * (0 : ℚ) + 65/100 * (((remapXzy (1,0,0)).2.1 - 0) / max ((1/10 : ℚ) - 0) 0),
       35/100 * (0 : ℚ) + 65/100 * (((remapXzy (1,0,0)).2.2 - 0) / max ((1/10 : ℚ) - 0) 0)) :=
  C2_smoothing_blend_65_new_35_retained (fun _ => 0) _ (0,0,0) 0 (1,0,0) (1/10)
    ⟨51181/200, 0, 0, 0, 0, 1/10⟩ rfl rfl rfl (by with_unfolding_all rfl)

/-- C5: `step` returns `None` whenever the sample is anomalous
(`dt < 1 ms`, `dt > 500 ms`, or squared displacement beyond the squared
~30 m ceiling), and on *every* path it re-primes `prev_position` and
`prev_timestamp` to the incoming sample — so the sample following a
teleport is measured against the teleported position. -/
theorem C5_anomalies_give_none_and_prev_always_updates (sqrtFn : ℚ → ℚ)
    (sc : SpeedCalculator) (pos : Vec3) (now : ℚ) :
    (∀ p t, sc.prev_pos_m = some p → sc.prev_t = some t →
      (max (now - t) 0 < 1/1000 ∨ max (now - t) 0 > sc.max_reasonable_dt ∨
        dist2 (remapXzy pos) p > sc.max_reasonable_step_m ^ 2) →
      (SpeedCalculator.step sqrtFn sc pos now).1 = none) ∧
    (SpeedCalculator.step sqrtFn sc pos now).2.prev_pos_m = some (remapXzy pos) ∧
    (SpeedCalculator.step sqrtFn sc pos now).2.prev_t = some now := by
  refine ⟨?_, ?_, ?_⟩
  · intro p t hp ht hbad
    simp only [SpeedCalculator.step, hp, ht]
    by_cases h1 : max (now - t) 0 < 1/1000 ∨ max (now - t) 0 > sc.max_reasonable_dt
    · rw [if_pos h1]
    · rw [if_neg h1]
      have h2 : dist2 (remapXzy pos) p > sc.max_reasonable_step_m ^ 2 := by
        rcases hbad with h | h | h
        · exact absurd (Or.inl h) h1
        · exact absurd (Or.inr h) h1
        · exact h
      rw [if_pos h2]
  all_goals
    rcases hpp : sc.prev_pos_m with _ | p <;> rcases htt : sc.prev_t with _ | t <;>
      simp only [SpeedCalculator.step, hpp, htt]
  all_goals repeat' split
  all_goals rfl

/-- Witness for C5: a 50-meter jump in one 40 ms tick is rejected with the
reference position still re-primed, and the next, ordinary 1-meter step from
the teleported position is accepted. -/
theorem C5_anomalies_witness :
    (max ((1/25 : ℚ) - 0) 0 < 1/1000 ∨
      max ((1/25 : ℚ) - 0) 0 > (SpeedCalculator.new).max_reasonable_dt ∨
      dist2 (remapXzy (50,0,0)) (0,0,0) > (SpeedCalculator.new).max_reasonable_step_m ^ 2) ∧
    (SpeedCalculator.step (fun _ => 0)
        { SpeedCalculator.new with prev_pos_m := some (0,0,0), prev_t := some 0 }
        (50, 0, 0) (1/25)).1 = none ∧
    (SpeedCalculator.step (fun _ => 0)
        { SpeedCalculator.new with prev_pos_m := some (0,0,0), prev_t := some 0 }
        (50, 0, 0) (1/25)).2.prev_pos_m = some (remapXzy (50,0,0)) ∧
    (SpeedCalculator.step (fun _ => 0)
        { SpeedCalculator.new with prev_pos_m := some (0,0,0), prev_t := some 0 }
        (50, 0, 0) (1/25)).2.prev_t = some (1/25) ∧
    (SpeedCalculator.step (fun _ => 0)
        ((SpeedCalculator.step (fun _ => 0)
          { SpeedCalculator.new with prev_pos_m := some (0,0,0), prev_t := some 0 }
          (50, 0, 0) (1/25)).2)
        (51, 0, 0) (2/25)).1.isSome = true :=
  ⟨by with_unfolding_all decide,
   (C5_anomalies_give_none_and_prev_always_updates (fun _ => 0) _ (50,0,0) (1/25)).1
     (0,0,0) 0 rfl rfl (by with_unfolding_all decide),
   (C5_anomalies_give_none_and_prev_always_updates (fun _ => 0) _ (50,0,0) (1/25)).2.1,
   (C5_anomalies_give_none_and_prev_always_updates (fun _ => 0) _ (50,0,0) (1/25)).2.2,
   by with_unfolding_all decide⟩

/-- C6 amended: every accepted `Speed` keeps the square-root relations
between its fields — `horizontal` is the square root of `vx² + vy²` and
`magnitude` the square root of `horizontal² + vz²` — *computed from the
pre-flush velocity components*, and `dt_s > 0` always; on the returned
component fields themselves the relations therefore hold whenever no
component was flushed to zero by the `EPS` guard (each pre-flush component
is zero or at least `EPS` in magnitude).  `sqrtFn` is assumed to behave as
the genuine square root at the two arguments this call evaluates it on. -/
theorem C6_speed_invariants (sqrtFn : ℚ → ℚ) (sc : SpeedCalculator) (p : Vec3)
    (t : ℚ) (pos : Vec3) (now : ℚ) (s1 : Speed) (vx vy vz hz : ℚ)
    (hp : sc.prev_pos_m = some p) (ht : sc.prev_t = some t)
    (hs : (SpeedCalculator.step sqrtFn sc pos now).1 = some s1)
    (hvx : vx = (newSmooth sc p (remapXzy pos) (max (now - t) 0)).1 * UNITS_PER_METER)
    (hvy : vy = (newSmooth sc p (remapXzy pos) (max (now - t) 0)).2.1 * UNITS_PER_METER)
    (hvz : vz = (newSmooth sc p (remapXzy pos) (max (now - t) 0)).2.2 * UNITS_PER_METER)
    (hhz : hz = sqrtFn (vx * vx + vy * vy))
    (hsq1 : 0 ≤ hz ∧ hz * hz = vx * vx + vy * vy)
    (hsq2 : 0 ≤ sqrtFn (hz * hz + vz * vz) ∧
      sqrtFn (hz * hz + vz * vz) * sqrtFn (hz * hz + vz * vz) = hz * hz + vz * vz)
    (hfx : vx = 0 ∨ EPS ≤ |vx|) (hfy : vy = 0 ∨ EPS ≤ |vy|)
    (hfz : vz = 0 ∨ EPS ≤ |vz|) :
    s1.horizontal * s1.horizontal = s1.vx * s1.vx + s1.vy * s1.vy ∧
    0 ≤ s1.horizontal ∧
    s1.magnitude * s1.magnitude = s1.horizontal * s1.horizontal + s1.vz * s1.vz ∧
    0 ≤ s1.magnitude ∧
    0 < s1.dt_s := by
  obtain ⟨h1, -, heq⟩ := step_accepts sqrtFn sc p t pos now s1 hp ht hs
  rw [heq] at hs
  have hval := Option.some.inj hs
  subst hval
  rw [← hvx, ← hvy, ← hvz] at *
  simp only [← hhz]
  rw [flushEps_eq_self vx hfx, flushEps_eq_self vy hfy, flushEps_eq_self vz hfz]
  refine ⟨hsq1.2, hsq1.1, hsq2.2, hsq2.1, ?_⟩
  have hge : ¬ max (now - t) 0 < 1/1000 := fun hlt => h1 (Or.inl hlt)
  calc (0 : ℚ) < 1/1000 := by norm_num
    _ ≤ max (now - t) 0 := not_lt.mp hge

/-- C6 counterexample: a tiny accepted step whose pre-flush scaled
velocities are `(1/200000, 0, 0)`.  Both square-root calls of this step
receive the argument `1/40000000000 = (1/200000)²`, on which the supplied
`sqrtFn` agrees with the genuine square root (second conjunct), so the
returned `Speed` is exactly what the real code computes here: `vx` (being
`< EPS = 1/100000`) is flushed to `0` while `horizontal` keeps the
pre-flush square root `1/200000`, and `horizontal² = vx² + vy²` fails on
the returned fields (`(1/200000)² ≠ 0² + 0²`). -/
theorem C6_claim_counterexample :
    ((SpeedCalculator.step (fun _ => (1/200000 : ℚ))
        { SpeedCalculator.new with prev_pos_m := some (0,0,0), prev_t := some 0 }
        (1/51181000, 0, 0) (1/10)).1 =
      some ⟨0, 0, 0, 1/200000, 1/200000, 1/10⟩) ∧
    ((1/200000 : ℚ) * (1/200000) = 1/40000000000) ∧
    ¬((1/200000 : ℚ) * (1/200000) = 0 * 0 + 0 * 0) := by
  refine ⟨by with_unfolding_all rfl, by norm_num, by norm_num⟩

/-- Witness for C6 amended: an accepted step whose scaled velocities are
`(3, 4, 0)`, with `sqrtFn` exact at the evaluated arguments (`25 ↦ 5`) and
no component flushed. -/
theorem C6_speed_invariants_witness :
    ((⟨3, 4, 0, 5, 5, 1/10⟩ : Speed).horizontal *
        (⟨3, 4, 0, 5, 5, 1/10⟩ : Speed).horizontal =
      (⟨3, 4, 0, 5, 5, 1/10⟩ : Speed).vx * (⟨3, 4, 0, 5, 5, 1/10⟩ : Speed).vx +
        (⟨3, 4, 0, 5, 5, 1/10⟩ : Speed).vy * (⟨3, 4, 0, 5, 5, 1/10⟩ : Speed).vy) ∧
    0 ≤ (⟨3, 4, 0, 5, 5, 1/10⟩ : Speed).horizontal ∧
    ((⟨3, 4, 0, 5, 5, 1/10⟩ : Speed).magnitude *
        (⟨3, 4, 0, 5, 5, 1/10⟩ : Speed).magnitude =
      (⟨3, 4, 0, 5, 5, 1/10⟩ : Speed).horizontal *
          (⟨3, 4, 0, 5, 5, 1/10⟩ : Speed).horizontal +
        (⟨3, 4, 0, 5, 5, 1/10⟩ : Speed).vz * (⟨3, 4, 0, 5, 5, 1/10⟩ : Speed).vz) ∧
    0 ≤ (⟨3, 4, 0, 5, 5, 1/10⟩ : Speed).magnitude ∧
    0 < (⟨3, 4, 0, 5, 5, 1/10⟩ : Speed).dt_s :=
  C6_speed_invariants (fun q => if q = 25 then 5 else 0)
    { SpeedCalculator.new with prev_pos_m := some (0,0,0), prev_t := some 0 }
    (0,0,0) 0 (600/51181, 0, 800/51181) (1/10) ⟨3, 4, 0, 5, 5, 1/10⟩ 3 4 0 5
    rfl rfl (by with_unfolding_all rfl)
    (by with_unfolding_all rfl) (by with_unfolding_all rfl)
    (by with_unfolding_all rfl) (by with_unfolding_all rfl)
    (by with_unfolding_all decide) (by with_unfolding_all decide)
    (Or.inr (by with_unfolding_all decide)) (Or.inr (by with_unfolding_all decide))
    (Or.inl rfl)

/-- C8 counterexample: `classify` is not total on non-finite inputs — with
a NaN `horizontal` field and a vertical speed inside the strict glide band,
`snap_glide` reaches `partial_cmp(..).unwrap()` on NaN distances and
panics (`none` in the finite-or-NaN model). -/
theorem C8_nan_horizontal_panics :
    classifyFl ⟨some 0, some 0, some (-100), none, some 0, some (1/25)⟩ none
      = none := by
  with_unfolding_all decide

/-- C8 amended: `classify` is a pure, deterministic function (it is a
function of its two arguments alone), and it is total — returning one of
the eleven labels — on every finite-or-NaN input whose `horizontal` field
is not NaN; the only fallible operation on such inputs, the
`partial_cmp(..).unwrap()` inside `snap_glide`, compares finite distances
and cannot panic. -/
theorem C8_classify_total_unless_nan_horizontal (s : SpeedFl)
    (facing : Option (Fl × Fl)) (h : s.horizontal ≠ none) :
    (classifyFl s facing).isSome = true := by
  obtain ⟨q, hq⟩ := Option.ne_none_iff_exists'.mp h
  simp only [classifyFl, hq, snapGlideFl]
  repeat' split
  all_goals rfl

/-- Witness for C8 amended: an all-zero finite sample is classified
(to `Idle`) without panicking. -/
theorem C8_classify_total_witness :
    (classifyFl ⟨some 0, some 0, some 0, some 0, some 0, some 0⟩ none).isSome
      = true :=
  C8_classify_total_unless_nan_horizontal
    ⟨some 0, some 0, some 0, some 0, some 0, some 0⟩ none (by simp)

theorem update_with_same_read (sqrtFn : ℚ → ℚ) (order : List classify.Movement)
    (ac : AirClassifier) (now : ℚ) (m1 m2 : Option MotionSample)
    (h : sameMotionRead m1 m2) :
    AirClassifier.update_with sqrtFn order ac now m1 =
      AirClassifier.update_with sqrtFn order ac now m2 := by
  match m1, m2 with
  | none, none => rfl
  | some (p1, f1, t1), some (p2, f2, t2) =>
    obtain ⟨hp, hf⟩ := h
    subst hp; subst hf; rfl
  | none, some (p2, f2, t2) => exact h.elim
  | some (p1, f1, t1), none => exact h.elim

theorem runWith_same_reads (sqrtFn : ℚ → ℚ) (order : List classify.Movement) :
    ∀ evs1 evs2 : List (ℚ × Option MotionSample),
      List.Forall₂ agreesUpToTick evs1 evs2 →
      ∀ ac : AirClassifier,
        runWith sqrtFn order ac evs1 = runWith sqrtFn order ac evs2 := by
  intro evs1 evs2 h
  induction h with
  | nil => intro ac; rfl
  | cons hab htl ih =>
    intro ac
    obtain ⟨ht, hm⟩ := hab
    simp only [runWith]
    rw [ht, update_with_same_read sqrtFn order ac _ _ _ hm]
    exact congrArg _ (ih _)

/-- C9 counterexample: the claim is false — `update_with` binds the `tick`
component of a `MotionSample` and never uses it, so no two input streams
that agree on position and facing can be distinguished, whether or not the
tick advances. -/
theorem C9_no_tick_distinguishing_streams : ¬ TickDistinguishable := by
  rintro ⟨sqrtFn, order, ac, evs1, evs2, hrel, hne⟩
  exact hne (runWith_same_reads sqrtFn order evs1 evs2 hrel ac)

/-- C9 amended: the `tick` field is read but ignored by the classification
pipeline — any two input streams to `update_with` that agree on position
and facing (ticks arbitrary, advancing or not) produce identical outputs. -/
theorem C9_update_with_ignores_tick (sqrtFn : ℚ → ℚ)
    (order : List classify.Movement) (ac : AirClassifier)
    (evs1 evs2 : List (ℚ × Option MotionSample))
    (h : List.Forall₂ agreesUpToTick evs1 evs2) :
    runWith sqrtFn order ac evs1 = runWith sqrtFn order ac evs2 :=
  runWith_same_reads sqrtFn order evs1 evs2 h ac

/-- Witness for C9 amended: a stream whose tick advances versus one whose
tick stays frozen, otherwise identical. -/
theorem C9_update_with_ignores_tick_witness :
    runWith (fun _ => 0) [] (AirClassifier.new 0)
        [(0, some ((0,0,0), (0,0,1), 1)), (1/25, some ((0,0,0), (0,0,1), 2))] =
      runWith (fun _ => 0) [] (AirClassifier.new 0)
        [(0, some ((0,0,0), (0,0,1), 1)), (1/25, some ((0,0,0), (0,0,1), 1))] :=
  C9_update_with_ignores_tick (fun _ => 0) [] (AirClassifier.new 0) _ _
    (List.Forall₂.cons ⟨rfl, rfl, rfl⟩
      (List.Forall₂.cons ⟨rfl, rfl, rfl⟩ List.Forall₂.nil))

/-- C7: when the motion source yields no sample, `update_with` returns the
last known stable state and leaves the whole classifier state (speed
calculator, temporal classifier, `last_state`, `last_change`) unchanged —
in particular it never resets to `Idle` spuriously, and the `None` arm of
the source `match` performs no fallible operation. -/
theorem C7_none_read_returns_last_state (sqrtFn : ℚ → ℚ)
    (order : List classify.Movement) (ac : AirClassifier) (now : ℚ) :
    AirClassifier.update_with sqrtFn order ac now none = (ac.last_state, ac) :=
  rfl

/-- C10: the majority vote never influences `update`: for every iteration
order of the vote tally, every classifier state and every input, `update`
coincides with the variant that omits the vote entirely, because the
proposed label is `avg_label` in both branches of the vote comparison. -/
theorem C10_vote_is_dead_code (order : List classify.Movement)
    (tc : TemporalClassifier) (now : ℚ) (s : Speed)
    (facing : Option (ℚ × ℚ)) :
    TemporalClassifier.update order tc now s facing =
      TemporalClassifier.updateNoVote tc now s facing := by
  simp only [TemporalClassifier.update, TemporalClassifier.updateNoVote,
    proposedOf, proposedNoVoteOf, ite_self]

/-- C3 amended, determinism half: the returned label and successor state of
`update` are identical for any two tally iteration orders, because the vote
result never influences the proposed label. -/
theorem C3_update_independent_of_tally_order
    (o1 o2 : List classify.Movement) (tc : TemporalClassifier) (now : ℚ)
    (s : Speed) (facing : Option (ℚ × ℚ)) :
    TemporalClassifier.update o1 tc now s facing =
      TemporalClassifier.update o2 tc now s facing := by
  simp only [TemporalClassifier.update, proposedOf, ite_self]

/-- C3 counterexample: the vote itself is *not* resolved by a stable
first-seen tie-break.  Concretely, classify five samples (two `Walk`, two
`Idle`, one `Other`); the tally is tied between `Walk` and `Idle`, and two
iteration orders of the same tally — both permutations of the key set, as a
run-dependent `HashMap` may present on two runs — yield different vote
winners; moreover with `Walk` first in iteration order the vote is `Idle`
(`max_by_key` keeps the *last* maximal entry), contradicting
first-seen-wins. -/
theorem C3_vote_tie_break_not_first_seen :
    (voteOf [.Walk, .Idle, .Other]
        [(0, ⟨80, 0, 0, 80, 80, 1/25⟩), (1/25, ⟨80, 0, 0, 80, 80, 1/25⟩),
         (2/25, ⟨0, 0, 0, 0, 0, 1/25⟩), (3/25, ⟨0, 0, 0, 0, 0, 1/25⟩),
         (4/25, ⟨500, 0, 0, 500, 500, 1/25⟩)] none = .Idle) ∧
    (voteOf [.Idle, .Walk, .Other]
        [(0, ⟨80, 0, 0, 80, 80, 1/25⟩), (1/25, ⟨80, 0, 0, 80, 80, 1/25⟩),
         (2/25, ⟨0, 0, 0, 0, 0, 1/25⟩), (3/25, ⟨0, 0, 0, 0, 0, 1/25⟩),
         (4/25, ⟨500, 0, 0, 500, 500, 1/25⟩)] none = .Walk) ∧
    classify.Movement.Idle ≠ classify.Movement.Walk := by
  with_unfolding_all decide

/-- Case analysis of the commit step of `update` (source lines 406–428):
either the stable state is kept, or it is set to the proposed label with the
last-switch timestamp reset, and in the latter case either the airborne-family
fast path applied or both dwell conditions held. -/
theorem update_commit_cases (order : List classify.Movement)
    (tc : TemporalClassifier) (now : ℚ) (s : Speed)
    (facing : Option (ℚ × ℚ)) :
    (TemporalClassifier.update order tc now s facing).2.state = tc.state ∨
    ((TemporalClassifier.update order tc now s facing).2.state
        = proposedOf order tc now s facing ∧
     (TemporalClassifier.update order tc now s facing).2.last_switch = now ∧
     ((same_airborne_family tc.state (proposedOf order tc now s facing) = true ∧
        proposedOf order tc now s facing ≠ .Other) ∨
      (tc.min_dwell_in ≤ tailProposedTime facing
          (proposedOf order tc now s facing) now (pushTrim tc now s).reverse ∧
       tc.min_dwell_out ≤ max (now - tc.last_switch) 0))) := by
  simp only [TemporalClassifier.update]
  split
  · split
    next h2 => exact Or.inr ⟨rfl, rfl, Or.inl ⟨h2.1, h2.2⟩⟩
    next h2 =>
      split
      next h3 => exact Or.inr ⟨rfl, rfl, Or.inr h3⟩
      next h3 => exact Or.inl rfl
  · exact Or.inl rfl

/-- C4: on a family-crossing transition (the current stable state and the
proposed label are not both airborne), `update` commits the proposed label
only if the tail of the window has matched it continuously for at least the
minimum dwell-in (120 ms) and at least the minimum dwell-out (160 ms) has
elapsed since the last state change; on commit the last-change timestamp is
reset to `now`. -/
theorem C4_family_crossing_requires_dwell (order : List classify.Movement)
    (tc : TemporalClassifier) (now : ℚ) (s : Speed)
    (facing : Option (ℚ × ℚ))
    (hdin : tc.min_dwell_in = 12/100) (hdout : tc.min_dwell_out = 16/100)
    (hfam : same_airborne_family tc.state
        (proposedOf order tc now s facing) = false) :
    (TemporalClassifier.update order tc now s facing).2.state ≠ tc.state →
      12/100 ≤ tailProposedTime facing (proposedOf order tc now s facing) now
          (pushTrim tc now s).reverse ∧
      16/100 ≤ max (now - tc.last_switch) 0 ∧
      (TemporalClassifier.update order tc now s facing).2.state
        = proposedOf order tc now s facing ∧
      (TemporalClassifier.update order tc now s facing).2.last_switch = now := by
  intro hne
  rcases update_commit_cases order tc now s facing with hkeep | ⟨hst, hsw, hgate⟩
  · exact absurd hkeep hne
  · rcases hgate with ⟨hfam', _⟩ | ⟨h1, h2⟩
    · rw [hfam'] at hfam; exact absurd hfam (by simp)
    · exact ⟨hdin ▸ h1, hdout ▸ h2, hst, hsw⟩

/-- Witness for C4: a one-off sample classifying as `Falling` after two
`Walk` samples, with stable state `Walk`.  The family-crossing hypothesis
holds, the dwell-in evidence is 0 seconds, and the stable state does not
flip. -/
theorem C4_family_crossing_requires_dwell_witness :
    (same_airborne_family
        ({ history := [(0, ⟨80, 0, 0, 80, 80, 1/25⟩), (1/25, ⟨80, 0, 0, 80, 80, 1/25⟩)]
           window := 3/10
           state := .Walk
           last_switch := 0
           min_dwell_in := 12/100
           min_dwell_out := 16/100
           glide_locked_until := 0 } : TemporalClassifier).state
        (proposedOf [.Falling, .Walk]
          { history := [(0, ⟨80, 0, 0, 80, 80, 1/25⟩), (1/25, ⟨80, 0, 0, 80, 80, 1/25⟩)]
            window := 3/10
            state := .Walk
            last_switch := 0
            min_dwell_in := 12/100
            min_dwell_out := 16/100
            glide_locked_until := 0 }
          (2/25) ⟨0, 0, -400, 0, 400, 1/25⟩ none) = false) ∧
    ((TemporalClassifier.update [.Falling, .Walk]
        { history := [(0, ⟨80, 0, 0, 80, 80, 1/25⟩), (1/25, ⟨80, 0, 0, 80, 80, 1/25⟩)]
          window := 3/10
          state := .Walk
          last_switch := 0
          min_dwell_in := 12/100
          min_dwell_out := 16/100
          glide_locked_until := 0 }
        (2/25) ⟨0, 0, -400, 0, 400, 1/25⟩ none).2.state ≠ .Walk →
      12/100 ≤ tailProposedTime none
          (proposedOf [.Falling, .Walk]
            { history := [(0, ⟨80, 0, 0, 80, 80, 1/25⟩), (1/25, ⟨80, 0, 0, 80, 80, 1/25⟩)]
              window := 3/10
              state := .Walk
              last_switch := 0
              min_dwell_in := 12/100
              min_dwell_out := 16/100
              glide_locked_until := 0 }
            (2/25) ⟨0, 0, -400, 0, 400, 1/25⟩ none) (2/25)
          (pushTrim
            { history := [(0, ⟨80, 0, 0, 80, 80, 1/25⟩), (1/25, ⟨80, 0, 0, 80, 80, 1/25⟩)]
              window := 3/10
              state := .Walk
              last_switch := 0
              min_dwell_in := 12/100
              min_dwell_out := 16/100
              glide_locked_until := 0 }
            (2/25) ⟨0, 0, -400, 0, 400, 1/25⟩).reverse ∧
      16/100 ≤ max ((2/25 : ℚ) - 0) 0 ∧
      (TemporalClassifier.update [.Falling, .Walk]
        { history := [(0, ⟨80, 0, 0, 80, 80, 1/25⟩), (1/25, ⟨80, 0, 0, 80, 80, 1/25⟩)]
          window := 3/10
          state := .Walk
          last_switch := 0
          min_dwell_in := 12/100
          min_dwell_out := 16/100
          glide_locked_until := 0 }
        (2/25) ⟨0, 0, -400, 0, 400, 1/25⟩ none).2.state
        = proposedOf [.Falling, .Walk]
            { history := [(0, ⟨80, 0, 0, 80, 80, 1/25⟩), (1/25, ⟨80, 0, 0, 80, 80, 1/25⟩)]
              window := 3/10
              state := .Walk
              last_switch := 0
              min_dwell_in := 12/100
              min_dwell_out := 16/100
              glide_locked_until := 0 }
            (2/25) ⟨0, 0, -400, 0, 400, 1/25⟩ none ∧
      (TemporalClassifier.update [.Falling, .Walk]
        { history := [(0, ⟨80, 0, 0, 80, 80, 1/25⟩), (1/25, ⟨80, 0, 0, 80, 80, 1/25⟩)]
          window := 3/10
          state := .Walk
          last_switch := 0
          min_dwell_in := 12/100
          min_dwell_out := 16/100
          glide_locked_until := 0 }
        (2/25) ⟨0, 0, -400, 0, 400, 1/25⟩ none).2.last_switch = 2/25) ∧
    (TemporalClassifier.update [.Falling, .Walk]
        { history := [(0, ⟨80, 0, 0, 80, 80, 1/25⟩), (1/25, ⟨80, 0, 0, 80, 80, 1/25⟩)]
          window := 3/10
          state := .Walk
          last_switch := 0
          min_dwell_in := 12/100
          min_dwell_out := 16/100
          glide_locked_until := 0 }
        (2/25) ⟨0, 0, -400, 0, 400, 1/25⟩ none).2.state = .Walk :=
  ⟨by with_unfolding_all decide,
   C4_family_crossing_requires_dwell [.Falling, .Walk] _ (2/25)
     ⟨0, 0, -400, 0, 400, 1/25⟩ none rfl rfl (by with_unfolding_all decide),
   by with_unfolding_all decide⟩

/-- C1 (code evaluated at the failing input): a two-sample window with the
vertical acceleration gate firing (`vz` trend `-1000 ≤ -350`, average `vz`
`-150 < -80`) while the stable state is `GlideNeutral` (airborne family).
The claim says the glide lock is cancelled and `Falling` is committed in
this same update; the code instead sets `glide_locked_until = now`, finds
`now <= glide_locked_until` still true, forces the proposal back to
`snap_glide`, and stays `GlideNeutral`. -/
theorem C1_accel_gate_not_committed_to_falling :
    let tc : TemporalClassifier :=
      { history := [(0, ⟨294, 0, -100, 294, 310, 1/25⟩)]
        window := 3/10
        state := .GlideNeutral
        last_switch := 0
        min_dwell_in := 12/100
        min_dwell_out := 16/100
        glide_locked_until := 0 }
    let s : Speed := ⟨294, 0, -200, 294, 355, 1/25⟩
    let hist := pushTrim tc (1/10) s
    (vz_trend hist ≤ FALL_ACCEL_GATE ∧ (avgOf hist s).vz < -classify.GLIDE_VZ_MIN) ∧
    accelSuggestsFall hist (avgOf hist s) = true ∧
    inAirborneFamily tc.state = true ∧
    (TemporalClassifier.update [.RunForward, .GlideNeutral] tc (1/10) s none).1
      = .GlideNeutral ∧
    (TemporalClassifier.update [.RunForward, .GlideNeutral] tc (1/10) s none).2.state
      = .GlideNeutral ∧
    (TemporalClassifier.update [.RunForward, .GlideNeutral] tc (1/10) s none).1
      ≠ .Falling := by
  with_unfolding_all decide
